import Mathlib

set_option linter.unusedVariables false

/-!
Shallow embedding of the concurrent image-generation pipeline of
`packages/python-backend/services/image.py` and the brand-watermark stage of
`packages/python-backend/services/brand.py`.

Modelling conventions:
* Python dicts become structures whose fields are the keys the code reads;
  a key read with `dict.get(k, default)` becomes an `Option` field consumed
  with `.getD default` at the use site.
* PIL images are abstract: an `PImage.buffer` is an opaque decoded image, and
  the post-processing renderers (text overlay, text/logo watermark) are free
  constructors, since the spec treats their pixel-level behaviour as out of
  scope and the claims only need "changed vs. unchanged".
* Network/SDK behaviour (Gemini `generate_images`, fal `subscribe`,
  `requests.get`) is an oracle parameter: each provider invocation consults a
  `BackendOutcome`, and each invocation of `generate_story_image` by the
  per-slide worker consults an `AttemptOutcome` (the worker catches
  exceptions from its callee, so the callee oracle may also raise).
* `random.randint` / `random.uniform` draws and `datetime` timestamps are
  explicit parameters of the functions that perform them.
* Logging (`print`) and the act of writing the PNG to disk are dropped; a
  "saved file" is the pair (file path, final image).
-/

/-- Python `needle in hay` substring test, on lists of characters. -/
def containsSub : List Char → List Char → Bool
  | [], needle => needle.isEmpty
  | c :: rest, needle => needle.isPrefixOf (c :: rest) || containsSub rest needle

/-- Python `str.lower()` (ASCII model, matching `Char.toLower`). -/
def str_lower (s : String) : String := String.mk (s.data.map Char.toLower)

/-- Python `str.upper()` (ASCII model, matching `Char.toUpper`). -/
def str_upper (s : String) : String := String.mk (s.data.map Char.toUpper)

/-- Python `x in s` for strings. -/
def str_contains (hay needle : String) : Bool := containsSub hay.data needle.data

/-- Python `str.strip()` on a character list.  After the sanitization map of
`image.py` the only whitespace character that can remain is `' '` (every other
character that is not alphanumeric or `-`/`_` has been replaced by `'_'`), so
stripping `Char.isWhitespace` coincides with Python's whitespace strip there. -/
def strip_chars (l : List Char) : List Char :=
  ((l.dropWhile Char.isWhitespace).reverse.dropWhile Char.isWhitespace).reverse

/-- One slide of a story plan (`slide` dicts of `image.py`): the keys the
generation pipeline reads are `slide_number`, `title`, `key_fact` and
`visual_description`. -/
structure Slide where
  slide_number : Nat
  title : String
  key_fact : String
  visual_description : String
deriving DecidableEq, Repr

/-- The `aesthetic` dict of a plan; every key is read with `.get`, so each
field is optional. -/
structure Aesthetic where
  art_style : Option String
  typography_style : Option String
  color_palette : Option String
  lighting : Option String
  texture : Option String
  background_style : Option String
deriving DecidableEq, Repr

/-- One character/object entry of the consistency data
(`consistency_data['characters']` / `['objects']` in `image.py`):
`name`, `description` are indexed directly, `appears_in_slides` is read with
`.get('appears_in_slides', [])`. -/
structure ConsistencyEntry where
  name : String
  description : String
  appears_in_slides : List Nat
deriving DecidableEq, Repr

/-- The `environment` sub-dict of the consistency data. -/
structure Environment where
  primary_setting : Option String
  lighting_consistency : Option String
deriving DecidableEq, Repr

/-- The optional `consistency_data` dict. `environment` is read with
`.get('environment', {})` and then tested for truthiness, so it is optional
here (`none` models both a missing and an empty dict). -/
structure ConsistencyData where
  characters : List ConsistencyEntry
  objects : List ConsistencyEntry
  environment : Option Environment
deriving DecidableEq, Repr

/-- A story plan as consumed by `generate_story_from_plan_parallel`:
`topic`, `aesthetic` and `slides` are indexed directly, `image_size` is read
with `.get('image_size', 'story')`. -/
structure Plan where
  topic : String
  aesthetic : Aesthetic
  slides : List Slide
  image_size : Option String
deriving DecidableEq, Repr

/-- A stored brand (an entry of `brands.json`, as read by `brand.py`).
Every key is read with `.get`, except `enabled` which defaults to `False`
(`config.get("enabled", False)`), modelled as a plain `Bool`. -/
structure Brand where
  id : Option String
  enabled : Bool
  brand_type : Option String
  logoPath : Option String
  text : Option String
  position : Option String
  opacity : Option ℚ
deriving DecidableEq, Repr

/-- Abstract PIL images.  `buffer` is an opaque decoded image buffer; the
other constructors record that a post-processing renderer transformed the
image (their pixel-level behaviour is out of scope, but "which renderers ran
on which input" is exactly what the claims need). -/
inductive PImage where
  | buffer (id : Nat)
  | textOverlaid (slide : Slide) (aesthetic : Aesthetic) (img : PImage)
  | textWatermarked (cfg : Brand) (img : PImage)
  | logoWatermarked (cfg : Brand) (img : PImage)
deriving DecidableEq, Repr

/-! ## Module constants of `image.py` -/

def MAX_PARALLEL_WORKERS : Nat := 3
def RETRY_MAX_ATTEMPTS : Nat := 3
/-- `RETRY_BASE_DELAY = 2.0`; the float arithmetic `2.0 ** attempt + uniform`
is exact for the 3 small exponents used, so it is modelled over `ℚ`. -/
def RETRY_BASE_DELAY : ℚ := 2
def TEXT_OVERLAY_ENABLED : Bool := false

/-! ## Consistency section (`_build_consistency_section`) -/

/-- The f-string `f"CHARACTER - \x7bchar['name']\x7d: \x7bchar['description']\x7d"`. -/
def fmt_character (c : ConsistencyEntry) : String :=
  "CHARACTER - " ++ c.name ++ ": " ++ c.description

/-- The f-string `f"RECURRING ELEMENT - \x7bobj['name']\x7d: \x7bobj['description']\x7d"`. -/
def fmt_object (o : ConsistencyEntry) : String :=
  "RECURRING ELEMENT - " ++ o.name ++ ": " ++ o.description

/-- The environment lines appended by `_build_consistency_section`
(`SETTING: ...` when `env.get('primary_setting')` is truthy, then
`LIGHTING: ...` when `env.get('lighting_consistency')` is truthy). -/
def env_sections (cd : ConsistencyData) : List String :=
  match cd.environment with
  | none => []
  | some env =>
    (if (env.primary_setting.getD "") ≠ "" then
      ["SETTING: " ++ env.primary_setting.getD ""] else []) ++
    (if (env.lighting_consistency.getD "") ≠ "" then
      ["LIGHTING: " ++ env.lighting_consistency.getD ""] else [])

/-- The `sections` list accumulated by `_build_consistency_section`: the two
`for` loops append one line per character/object whose `appears_in_slides`
contains this slide's number, then the environment lines. -/
def consistency_sections (slide : Slide) (cd : ConsistencyData) : List String :=
  let slide_num := slide.slide_number
  let s1 := cd.characters.foldl
    (fun acc c => if c.appears_in_slides.contains slide_num then acc ++ [fmt_character c] else acc) []
  let s2 := cd.objects.foldl
    (fun acc o => if o.appears_in_slides.contains slide_num then acc ++ [fmt_object o] else acc) s1
  s2 ++ env_sections cd

/-- `_build_consistency_section(slide, consistency_data)`: empty string when
`consistency_data` is falsy or no section applies, otherwise the
`<VISUAL_CONSISTENCY>` block wrapping the newline-joined sections. -/
def _build_consistency_section (slide : Slide) (consistency_data : Option ConsistencyData) : String :=
  match consistency_data with
  | none => ""
  | some cd =>
    let sections := consistency_sections slide cd
    if sections ≠ [] then
      "<VISUAL_CONSISTENCY>\nMaintain these consistent elements:\n" ++
        String.intercalate "\n" sections ++ "\n</VISUAL_CONSISTENCY>\n\n"
    else ""

/-! ## Topic sanitization and file naming -/

/-- `"".join(c if c.isalnum() or c in (' ', '-', '_') else '_' for c in topic)[:30].strip()`
from `generate_story_from_plan_parallel` (Python's Unicode `isalnum` is
modelled by the ASCII `Char.isAlphanum`). -/
def sanitize_topic (topic : String) : String :=
  String.mk (strip_chars
    ((topic.data.map
      (fun c => if c.isAlphanum || c == ' ' || c == '-' || c == '_' then c else '_')).take 30))

/-- `os.path.join(output_dir, f"..._slide\x7bslide_num\x7d.png")` with the name
pattern of the save loop. -/
def slide_filename (output_dir safe_topic timestamp : String) (slide_num : Nat) : String :=
  output_dir ++ "/" ++ safe_topic ++ "_" ++ timestamp ++ "_slide" ++ toString slide_num ++ ".png"

/-! ## Style-specific text instructions (`_get_style_specific_text_instructions`) -/

/-- Python `any(k in art_style for k in [...])`. -/
def matches_any (s : String) (keywords : List String) : Bool :=
  keywords.any (fun k => str_contains s k)

def anime_keywords : List String := ["anime", "manga", "japanese", "ghibli", "shinkai"]
def comic_keywords : List String := ["comic", "pop art", "marvel", "dc", "warhol", "lichtenstein"]
def cyberpunk_keywords : List String := ["cyberpunk", "neon", "futuristic", "holographic", "tech", "digital", "blade runner", "ghost in the shell"]
def vintage_keywords : List String := ["vintage", "retro", "classic", "old", "1950", "1960", "nostalgia", "antique"]
def minimal_keywords : List String := ["minimal", "clean", "corporate", "premium", "business", "professional", "bloomberg", "fortune"]
def artistic_keywords : List String := ["watercolor", "painting", "artistic", "brush", "editorial", "kinfolk"]
def cinematic_keywords : List String := ["cinematic", "film", "photo", "realistic", "dramatic", "sports", "dynamic", "motion", "espn", "nike", "national geographic"]
def fantasy_keywords : List String := ["fantasy", "magical", "ethereal", "mystical", "elvish", "lord of the rings", "enchanted"]
def sacred_keywords : List String := ["sacred", "spiritual", "religious", "golden", "divine", "holy", "temple", "renaissance"]
def cosmic_keywords : List String := ["cosmic", "space", "stellar", "galaxy", "nebula", "interstellar", "cosmos"]
def threed_keywords : List String := ["3d", "pixar", "animated", "playful", "cartoon", "nintendo", "render"]
def graffiti_keywords : List String := ["graffiti", "street", "urban", "hip-hop", "spray", "stencil"]
def horror_keywords : List String := ["horror", "dark", "gothic", "mystery", "eerie", "creepy", "crimson", "souls"]
def warm_keywords : List String := ["warm", "food", "lifestyle", "cozy", "appetit", "culinary", "cafe"]
def nature_keywords : List String := ["nature", "wildlife", "earth", "documentary", "forest", "ocean", "planet"]

/-- The priority-ordered table of style families checked by the `if`/`elif`
chain of `_get_style_specific_text_instructions`. -/
def style_family_keyword_table : List (List String) :=
  [anime_keywords, comic_keywords, cyberpunk_keywords, vintage_keywords,
   minimal_keywords, artistic_keywords, cinematic_keywords, fantasy_keywords,
   sacred_keywords, cosmic_keywords, threed_keywords, graffiti_keywords,
   horror_keywords, warm_keywords, nature_keywords]

/-- The lowercased `art_style` matches (at least) one keyword of (at least)
one family of the table, i.e. some branch of the `if`/`elif` chain fires. -/
def matches_some_family (art_style : String) : Bool :=
  style_family_keyword_table.any (fun ks => matches_any art_style ks)

def anime_text : String := "TEXT STYLE (Anime/Manga):\n- Title: Bold Japanese manga-style impact text, dynamic angle, with speed lines or glow effects\n- Fact: Clean white text in a stylized text box with rounded corners\n- Add dramatic manga effects: sparkles, motion lines, emphasis marks\n- Text should feel like it's from a professional anime poster or Studio Ghibli film"
def comic_text : String := "TEXT STYLE (Comic Book/Pop Art):\n- Title: BOLD ALL-CAPS comic book lettering with thick black outline, halftone dots behind\n- Fact: Speech bubble or caption box style, bold sans-serif\n- Add comic effects: Ben-Day dots, action words, bold outlines\n- Text should feel like classic Marvel/DC comics or Roy Lichtenstein art"
def cyberpunk_text : String := "TEXT STYLE (Cyberpunk/Neon):\n- Title: Glowing neon text with electric blue/pink glow, holographic effect\n- Fact: Digital display style text, like a futuristic HUD interface\n- Add tech elements: glitch effects, scan lines, digital noise\n- Text should feel like Blade Runner or Ghost in the Shell"
def vintage_text : String := "TEXT STYLE (Vintage/Retro):\n- Title: Classic vintage typography, serif fonts, aged paper texture\n- Fact: Typewriter style or old newspaper headline font\n- Add vintage elements: worn edges, sepia tones, film grain\n- Text should feel like a 1950s advertisement or old movie poster"
def minimal_text : String := "TEXT STYLE (Minimal/Corporate):\n- Title: Ultra-clean sans-serif, lots of whitespace, elegant positioning\n- Fact: Thin, sophisticated typography with perfect kerning\n- Keep text simple and uncluttered, no effects\n- Text should feel like high-end magazine, Apple design, or Bloomberg"
def artistic_text : String := "TEXT STYLE (Artistic/Editorial):\n- Title: Hand-lettered brush script, flowing and artistic\n- Fact: Elegant serif font that complements the painterly style\n- Text should blend with the artwork, feel hand-crafted and premium\n- Add subtle artistic touches that complement the style"
def cinematic_text : String := "TEXT STYLE (Cinematic/Sports):\n- Title: Bold movie poster typography, strong contrast, slight 3D depth\n- Fact: Clean white text at bottom with subtle gradient overlay for readability\n- Professional film credits or sports broadcast style positioning\n- Text should feel like a Hollywood movie poster or ESPN graphic"
def fantasy_text : String := "TEXT STYLE (Fantasy/Magical):\n- Title: Ornate fantasy lettering with magical glow, elvish or mystical feel\n- Fact: Elegant text on a semi-transparent magical scroll or banner\n- Add magical particles, sparkles, or runes around text\n- Text should feel like Lord of the Rings or fantasy book cover"
def sacred_text : String := "TEXT STYLE (Sacred/Spiritual):\n- Title: Elegant gold-embossed lettering with divine glow, ornate serifs\n- Fact: Classical text on parchment-style banner or sacred scroll\n- Add subtle golden light rays, sacred geometry, or divine particles\n- Text should feel like illuminated manuscripts or temple inscriptions"
def cosmic_text : String := "TEXT STYLE (Cosmic/Space):\n- Title: Glowing stellar text with cosmic particle effects, floating in space\n- Fact: Clean futuristic font with subtle starlight glow\n- Add space elements: star particles, nebula wisps, cosmic dust\n- Text should feel like Interstellar or Cosmos documentary"
def threed_text : String := "TEXT STYLE (3D/Animated):\n- Title: Bold 3D extruded text with colorful shadows, playful and fun\n- Fact: Rounded, friendly font like Pixar movie titles\n- Text should pop out, feel touchable and dimensional\n- Add subtle reflections and glossy finish to text"
def graffiti_text : String := "TEXT STYLE (Street Art/Graffiti):\n- Title: Bold graffiti-style lettering, spray paint effect, drips\n- Fact: Stencil style or bold urban typography\n- Add street art elements: tags, paint splatters, brick texture\n- Text should feel like authentic street art or hip-hop album cover"
def horror_text : String := "TEXT STYLE (Horror/Gothic):\n- Title: Dripping, distressed text with eerie glow, blood red or ghostly white\n- Fact: Gothic serif font, slightly unsettling\n- Add horror elements: cracks, fog, shadows, decay\n- Text should feel like a horror movie poster or Dark Souls"
def warm_text : String := "TEXT STYLE (Warm/Lifestyle):\n- Title: Warm, inviting serif or script font with soft shadows\n- Fact: Clean text with warm color tones, organic feel\n- Keep text cozy and approachable, like a cookbook or cafe menu\n- Text should feel like Bon Appétit or a premium lifestyle brand"
def nature_text : String := "TEXT STYLE (Nature/Documentary):\n- Title: Strong, authoritative sans-serif with subtle earth-tone shadow\n- Fact: Clean documentary-style lower third text\n- Professional but organic feel, respecting the natural subject\n- Text should feel like Planet Earth or National Geographic"

/-- The generic fallback of the final `else` branch when `typography_style`
is empty: the "professional" instruction set. -/
def professional_text_instructions : String := "TEXT STYLE (Professional):\n- Title: Bold, clean sans-serif text with subtle drop shadow\n- Fact: Clear white text on semi-transparent dark gradient bar\n- Professional and readable, optimized for social media\n- Text should be crisp, modern, and highly legible"

/-- The default branch when `typography_style` is truthy: a custom block
built from `typography_style` (and the lowercased `art_style`). -/
def custom_text_instructions (art_style typography_style typography_hint : String) : String :=
  "TEXT STYLE (Custom - " ++ typography_style ++ "):\n- Title: " ++ typography_style ++
  ", prominent and eye-catching at top\n- Fact: Complementary clean text at bottom with good contrast\n- Ensure text matches the overall " ++
  art_style ++ " aesthetic\n- Text should be professional, readable, and style-appropriate" ++ typography_hint

/-- `_get_style_specific_text_instructions(aesthetic)`: the priority-ordered
`if`/`elif` chain over keyword families, with the two-way default branch. -/
def _get_style_specific_text_instructions (aesthetic : Aesthetic) : String :=
  let art_style := str_lower (aesthetic.art_style.getD "")
  let typography_style := aesthetic.typography_style.getD ""
  let typography_hint :=
    if typography_style ≠ "" then "\nTypography Direction: " ++ typography_style else ""
  if matches_any art_style anime_keywords then anime_text ++ typography_hint
  else if matches_any art_style comic_keywords then comic_text ++ typography_hint
  else if matches_any art_style cyberpunk_keywords then cyberpunk_text ++ typography_hint
  else if matches_any art_style vintage_keywords then vintage_text ++ typography_hint
  else if matches_any art_style minimal_keywords then minimal_text ++ typography_hint
  else if matches_any art_style artistic_keywords then artistic_text ++ typography_hint
  else if matches_any art_style cinematic_keywords then cinematic_text ++ typography_hint
  else if matches_any art_style fantasy_keywords then fantasy_text ++ typography_hint
  else if matches_any art_style sacred_keywords then sacred_text ++ typography_hint
  else if matches_any art_style cosmic_keywords then cosmic_text ++ typography_hint
  else if matches_any art_style threed_keywords then threed_text ++ typography_hint
  else if matches_any art_style graffiti_keywords then graffiti_text ++ typography_hint
  else if matches_any art_style horror_keywords then horror_text ++ typography_hint
  else if matches_any art_style warm_keywords then warm_text ++ typography_hint
  else if matches_any art_style nature_keywords then nature_text ++ typography_hint
  else if typography_style ≠ "" then
    custom_text_instructions art_style typography_style typography_hint
  else professional_text_instructions

/-! ## Style enforcement (`_get_style_enforcement`) -/

def style_enforcement_anime : String := "\n<STYLE_DIRECTIVE>\nART STYLE: Anime/Manga Illustration\n- Render in Japanese anime art style with cel-shading\n- Use anime facial features and proportions\n- Apply flat colors with clean cel-shaded shadows\n- Style reference: Studio Ghibli, Makoto Shinkai\n⚠️ IMPORTANT: Keep the SAME subject/person described below, just render them in anime style\n</STYLE_DIRECTIVE>\n"
def style_enforcement_comic : String := "\n<STYLE_DIRECTIVE>\nART STYLE: Pop Art / Comic Book\n- Render in bold comic book pop art style\n- Use thick black outlines, halftone dots, flat primary colors\n- Apply Roy Lichtenstein / Andy Warhol aesthetic\n- Style reference: Marvel Comics, classic pop art\n⚠️ IMPORTANT: Keep the SAME subject/person described below, just render them in comic style\n</STYLE_DIRECTIVE>\n"
def style_enforcement_cyberpunk : String := "\n<STYLE_DIRECTIVE>\nART STYLE: Cyberpunk Neon\n- Apply strong neon lighting (cyan, magenta, pink)\n- Dark atmospheric background with neon accents\n- Style reference: Blade Runner 2049, Cyberpunk 2077\n⚠️ IMPORTANT: Keep the SAME subject/person described below, with cyberpunk lighting\n</STYLE_DIRECTIVE>\n"
def style_enforcement_minimal : String := "\n<STYLE_DIRECTIVE>\nART STYLE: Minimalist / Clean\n- Maximum white space and simplicity\n- Clean geometric shapes, professional aesthetic\n- Style reference: Apple design, Swiss typography\n</STYLE_DIRECTIVE>\n"

/-- `_get_style_enforcement(art_style)`. -/
def _get_style_enforcement (art_style : String) : String :=
  let style_lower := str_lower art_style
  if matches_any style_lower ["anime", "manga", "japanese"] then style_enforcement_anime
  else if matches_any style_lower ["comic", "pop art", "marvel"] then style_enforcement_comic
  else if matches_any style_lower ["cyberpunk", "neon"] then style_enforcement_cyberpunk
  else if matches_any style_lower ["minimal", "clean"] then style_enforcement_minimal
  else ""

/-! ## Prompt composition (the f-string of `generate_story_image`) -/

/-- The module constant `QUALITY_CONSTRAINTS`. -/
def QUALITY_CONSTRAINTS : String := "\n<AVOID_IN_IMAGE>\nDO NOT generate any of these common AI failures:\n- Blurry, illegible, misspelled, or distorted text\n- Extra fingers, deformed hands, anatomical errors\n- Watermarks, signatures, logos, or artist stamps\n- Low quality, pixelated, JPEG artifacts, or compression noise\n- Floating objects or disconnected/disembodied elements\n- Duplicate body parts, merged figures, or conjoined limbs\n- Text with gibberish characters or random letters\n- Wrong aspect ratio, stretched, or squished content\n- Uncanny valley faces or plastic-looking skin\n- Overly busy backgrounds that compete with the subject\n</AVOID_IN_IMAGE>\n"

/-- Python `art_style.split()[0]` (split on whitespace runs).  On a nonempty
all-whitespace `art_style` Python raises `IndexError` (reaching the worker as
a non-rate-limited failure); the total model returns `""` there. -/
def first_word (s : String) : String :=
  ((s.split Char.isWhitespace).filter (fun t => t ≠ "")).headD ""

/-- The prompt text before the `\x7bconsistency_section\x7d` splice point. -/
def prompt_before_consistency (style_enforcement topic aspect_info : String) : String :=
  "<IMAGE_GENERATION_BRIEF>\n" ++ style_enforcement ++ "\nTOPIC: " ++ topic ++
  "\nFORMAT: " ++ str_upper aspect_info ++
  "\nQUALITY: Award-winning professional artwork, 8K resolution, museum-quality detail\n\n"

/-- The prompt text after the `\x7bconsistency_section\x7d` splice point. -/
def prompt_after_consistency (slide : Slide) (topic : String) (aesthetic : Aesthetic)
    (art_style text_instructions : String) : String :=
  "<SCENE_DIRECTION>\nSubject: " ++ topic ++ "\nScene: " ++ slide.visual_description ++
  "\n</SCENE_DIRECTION>\n\n<VISUAL_STYLE_SYSTEM>\nArt Direction: " ++ art_style ++
  "\nColor Palette: " ++ aesthetic.color_palette.getD "vibrant, eye-catching colors" ++
  "\nLighting Design: " ++ aesthetic.lighting.getD "dramatic, professional lighting" ++
  "\nTexture: " ++ aesthetic.texture.getD "refined surface quality" ++
  "\nBackground: " ++ aesthetic.background_style.getD "complementary atmosphere" ++
  "\n</VISUAL_STYLE_SYSTEM>\n\n<INTEGRATED_TEXT_ELEMENTS>\nHEADLINE (Top Zone - 15% of frame):\n\"" ++
  slide.title ++ "\"\n\nKEY FACT (Bottom Zone - 20% of frame):\n\"" ++ slide.key_fact ++
  "\"\n\n" ++ text_instructions ++
  "\n</INTEGRATED_TEXT_ELEMENTS>\n\n<COMPOSITION_RULES>\n1. FOCAL HIERARCHY: Main subject at center or rule-of-thirds intersection\n2. TEXT ZONES: Reserve top 15% and bottom 20% for text with appropriate contrast\n3. VISUAL FLOW: Guide eye from title → main visual → fact\n4. BREATHING ROOM: Ensure text has clean background behind it (gradient, blur, or solid overlay)\n5. BALANCE: No element should fight for attention - harmonious composition\n</COMPOSITION_RULES>\n\n<QUALITY_STANDARDS>\nMUST ACHIEVE:\n✓ Text is perfectly spelled, crisp, and instantly readable\n✓ Art style is unmistakably " ++
  (if art_style ≠ "" then first_word art_style else "professional") ++
  "\n✓ Colors are vibrant and screen-optimized (not muddy or dull)\n✓ Composition feels intentional and professionally designed\n✓ Image would make someone stop scrolling and screenshot\n\nMUST AVOID:\n✗ Blurry or illegible text\n✗ Cluttered composition with competing focal points\n✗ Generic stock photo aesthetic\n✗ Text that blends into busy backgrounds\n✗ Inconsistent style elements\n</QUALITY_STANDARDS>\n\n" ++
  QUALITY_CONSTRAINTS ++ "\n</IMAGE_GENERATION_BRIEF>\n\nGenerate this image now. English text only."

/-- The full prompt composed by `generate_story_image` (its `prompt = f"..."`),
with the consistency section spliced between the two fixed parts. -/
def compose_prompt (slide : Slide) (topic : String) (aesthetic : Aesthetic)
    (image_size : String) (consistency_data : Option ConsistencyData) : String :=
  let aspect_info :=
    if image_size == "square" then "square 1:1 format for Instagram posts"
    else "vertical 9:16 portrait format for Instagram/WhatsApp stories"
  let art_style := aesthetic.art_style.getD "cinematic illustration"
  let text_instructions := _get_style_specific_text_instructions aesthetic
  let consistency_section := _build_consistency_section slide consistency_data
  let style_enforcement := _get_style_enforcement art_style
  prompt_before_consistency style_enforcement topic aspect_info ++
    consistency_section ++
    prompt_after_consistency slide topic aesthetic art_style text_instructions

/-! ## Provider adapters (`_generate_with_fal`, `_generate_with_gemini`) -/

/-- The process-wide client handles of `services/clients.py` (`None` when the
corresponding API key is missing), reduced to their truthiness, which is all
`image.py` inspects. -/
structure Clients where
  gemini_client : Bool
  fal_client : Bool
deriving DecidableEq, Repr

/-- Outcome of one backend SDK call (`fal_client.subscribe` + URL fetch, or
`gemini_client.models.generate_images`), the part of the world the adapters
consult.  `raised` is an exception from the SDK — both adapters catch it with
their own `except Exception` and return `None` rather than letting it
propagate. -/
inductive BackendOutcome where
  | image (img : PImage)
  | empty
  | raised (msg : String)
deriving DecidableEq, Repr

/-- `_generate_with_fal(prompt, image_size, seed)`: returns `None` when
`fal_client` is not initialized; otherwise the aspect-prefixed prompt,
dimensions and optional seed are passed to `subscribe` (abstracted by the
`backend` oracle) and every failure — exception, missing image payload, or a
non-200 fetch — yields `None`; the function never raises. -/
def _generate_with_fal (clients : Clients) (backend : BackendOutcome)
    (prompt : String) (image_size : String) (seed : Option Nat) : Option PImage :=
  if !clients.fal_client then none
  else
    match backend with
    | .image img => some img
    | .empty => none
    | .raised _ => none

/-- `_generate_with_gemini(prompt, image_size, model)`: returns `None` when
`gemini_client` is not initialized; otherwise the call (abstracted by the
`backend` oracle) yields the decoded image, and every failure — exception or
empty `generated_images` — yields `None`; the function never raises. -/
def _generate_with_gemini (clients : Clients) (backend : BackendOutcome)
    (prompt : String) (image_size : String) (model : String) : Option PImage :=
  if !clients.gemini_client then none
  else
    match backend with
    | .image img => some img
    | .empty => none
    | .raised _ => none

/-- `generate_story_image(slide, topic, total_slides, aesthetic, image_size,
provider, consistency_data, seed)`: composes the prompt and dispatches on the
provider string (`"fal"`, `"gemini-pro"`, anything else → gemini-flash). -/
def generate_story_image (clients : Clients) (backend : BackendOutcome)
    (slide : Slide) (topic : String) (total_slides : Nat) (aesthetic : Aesthetic)
    (image_size : String) (provider : String)
    (consistency_data : Option ConsistencyData) (seed : Option Nat) : Option PImage :=
  let prompt := compose_prompt slide topic aesthetic image_size consistency_data
  if provider == "fal" then
    _generate_with_fal clients backend prompt image_size seed
  else if provider == "gemini-pro" then
    _generate_with_gemini clients backend prompt image_size "imagen-3.0-generate-002"
  else
    _generate_with_gemini clients backend prompt image_size "imagen-3.0-fast-generate-001"

/-! ## Per-slide worker with retry (`_generate_single_slide_worker`) -/

/-- Outcome of one invocation of `generate_story_image` as seen from the
worker's `try`: either a normal return (possibly `None`), or an exception
with message `str(e)`. -/
inductive AttemptOutcome where
  | ret (image : Option PImage)
  | exn (msg : String)
deriving DecidableEq, Repr

/-- `any(x in error_str for x in ['rate', '429', 'quota', 'limit'])` over
`error_str = str(e).lower()`. -/
def is_rate_limit_error (msg : String) : Bool :=
  ["rate", "429", "quota", "limit"].any (fun x => str_contains (str_lower msg) x)

/-- The `for attempt in range(RETRY_MAX_ATTEMPTS)` loop of
`_generate_single_slide_worker`, with the remaining iteration budget as fuel.
Returns (worker result, number of invocations of the callee, the list of
`time.sleep` delays performed).  `jitter attempt` is the `random.uniform(0, 1)`
draw of that iteration. -/
def worker_loop (callee : Nat → AttemptOutcome) (jitter : Nat → ℚ) :
    Nat → Nat → Option PImage × Nat × List ℚ
  | 0, _ => (none, 0, [])
  | rem + 1, attempt =>
    match callee attempt with
    | .ret image => (image, 1, [])
    | .exn msg =>
      if is_rate_limit_error msg then
        let delay := RETRY_BASE_DELAY ^ attempt + jitter attempt
        let rest := worker_loop callee jitter rem (attempt + 1)
        (rest.1, rest.2.1 + 1, delay :: rest.2.2)
      else (none, 1, [])

/-- `_generate_single_slide_worker(args)` minus the argument unpacking: runs
the retry loop with `RETRY_MAX_ATTEMPTS` budget starting at attempt 0; falls
through to `(slide_num, None)` when the budget is exhausted.  It catches every
exception of its callee, so it never raises. -/
def _generate_single_slide_worker (callee : Nat → AttemptOutcome) (jitter : Nat → ℚ) :
    Option PImage × Nat × List ℚ :=
  worker_loop callee jitter RETRY_MAX_ATTEMPTS 0

/-! ## Brand store and watermark stage (`services/brand.py`) -/

/-- `config.py`: `BRAND_DIR = os.path.join(BACKEND_DIR, "brand")`; the
backend directory itself is abstracted away. -/
def BRAND_DIR : String := "brand"

/-- `get_brand_by_id(brand_id)`: first stored brand whose `id` equals the
argument (`brand.get("id") == brand_id`), else `None`. -/
def get_brand_by_id (brands : List Brand) (brand_id : String) : Option Brand :=
  brands.find? (fun b => b.id == some brand_id)

/-- `get_brand_config()` (legacy): the first stored brand with `enabled`
forced to `True`, or the disabled default config when no brand is stored. -/
def get_brand_config (brands : List Brand) : Brand :=
  match brands with
  | b :: _ => { b with enabled := true }
  | [] =>
    { id := none, enabled := false, brand_type := some "logo",
      logoPath := none, text := none, position := some "bottom-right", opacity := none }

/-- `_apply_text_watermark(image, config)`: skipped when `config.get("text",
"")` is falsy; otherwise the PIL text drawing is abstracted as the
`textWatermarked` constructor (on a PIL error the original image is returned
— the drawing itself never fails in the model). -/
def _apply_text_watermark (image : PImage) (config : Brand) : PImage :=
  let text := config.text.getD ""
  if text == "" then image
  else PImage.textWatermarked config image

/-- `_apply_logo_watermark(image, config)`: the configured `logoPath` is used
when truthy and existing, else `BRAND_DIR/logo.png`; when the resolved path
does not exist the image is returned unchanged, otherwise the PIL logo paste
is abstracted as the `logoWatermarked` constructor.  `files` is the set of
paths for which `os.path.exists` holds. -/
def _apply_logo_watermark (files : List String) (image : PImage) (config : Brand) : PImage :=
  let logo_path :=
    match config.logoPath with
    | some p => if p ≠ "" && files.contains p then p else BRAND_DIR ++ "/logo.png"
    | none => BRAND_DIR ++ "/logo.png"
  if !files.contains logo_path then image
  else PImage.logoWatermarked config image

/-- `apply_watermark(image, config)`: a missing config falls back to the
legacy `get_brand_config()`; a config whose `enabled` is falsy is a no-op;
otherwise dispatch on `config.get("type", "logo")`. -/
def apply_watermark (brands : List Brand) (files : List String)
    (image : PImage) (config : Option Brand) : PImage :=
  let cfg :=
    match config with
    | some c => c
    | none => get_brand_config brands
  if !cfg.enabled then image
  else if cfg.brand_type.getD "logo" == "text" then _apply_text_watermark image cfg
  else _apply_logo_watermark files image cfg

/-- The brand-config resolution at the head of both batch functions:
`if brand_id: brand_config = get_brand_by_id(brand_id); if brand_config:
brand_config["enabled"] = True` — note that an unknown `brand_id` leaves
`brand_config = None` — `else: brand_config = get_brand_config()`. -/
def resolve_brand_config (brands : List Brand) (brand_id : Option String) : Option Brand :=
  if brand_id.getD "" ≠ "" then
    match get_brand_by_id brands (brand_id.getD "") with
    | some b => some { b with enabled := true }
    | none => none
  else some (get_brand_config brands)

/-! ## Text overlay stage (`_apply_text_overlay`) -/

/-- `_apply_text_overlay(image, slide, aesthetic)`: returns the image
unchanged whenever the module constant `TEXT_OVERLAY_ENABLED` is `False`, or
when both `title` and `key_fact` are falsy; the PIL title/fact rendering is
abstracted as the `textOverlaid` constructor. -/
def _apply_text_overlay (image : PImage) (slide : Slide) (aesthetic : Aesthetic) : PImage :=
  if !TEXT_OVERLAY_ENABLED then image
  else
    let title := slide.title
    let key_fact := slide.key_fact
    if title == "" && key_fact == "" then image
    else PImage.textOverlaid slide aesthetic image

/-! ## The parallel batch (`generate_story_from_plan_parallel`) -/

/-- One tuple of `task_args`:
`(slide, topic, len(slides), aesthetic, image_size, provider,
consistency_data, base_seed)`. -/
structure TaskArgs where
  slide : Slide
  topic : String
  total_slides : Nat
  aesthetic : Aesthetic
  image_size : String
  provider : String
  consistency_data : Option ConsistencyData
  seed : Option Nat
deriving DecidableEq, Repr

/-- The `task_args` list comprehension of `generate_story_from_plan_parallel`
(`base_seed` is the already-computed shared seed). -/
def story_task_args (plan : Plan) (provider : String)
    (consistency_data : Option ConsistencyData) (base_seed : Option Nat) : List TaskArgs :=
  plan.slides.map (fun slide =>
    ⟨slide, plan.topic, plan.slides.length, plan.aesthetic,
     plan.image_size.getD "story", provider, consistency_data, base_seed⟩)

/-- `generate_story_from_plan_parallel(plan, output_dir, provider, brand_id,
consistency_data, max_workers, text_overlay)`.

Oracle parameters: `timestamp` is the `datetime.now().strftime(...)` string,
`seed_draw` the `random.randint(1, 2147483647)` draw, `callee slide attempt`
the outcome of the worker's `attempt`-th invocation of `generate_story_image`
for `slide`, `jitter slide attempt` the matching `random.uniform(0, 1)` draw,
`brands` the stored `brands.json` entries and `files` the existing files.

The `results` dict is keyed by slide number — each submitted future stores
its `(slide_number, image-or-None)` pair, and the outer `try`/`except` around
`future.result()` also stores `None` on an exception, so one entry exists per
submitted task; thread completion order does not affect the final dict when
slide numbers are distinct, which is how it is consulted below.  The final
save loop walks `slides` in plan order, skips slides whose result is absent,
and post-processes (optional text overlay, then watermark) and saves the
rest; the returned list models the saved files as (path, final image) pairs.
`max_workers` bounds thread-level parallelism only and does not influence
which files are produced. -/
def generate_story_from_plan_parallel (plan : Plan) (output_dir : String)
    (provider : String) (brand_id : Option String)
    (consistency_data : Option ConsistencyData) (max_workers : Nat)
    (text_overlay : Option Bool) (timestamp : String) (seed_draw : Nat)
    (callee : Slide → Nat → AttemptOutcome) (jitter : Slide → Nat → ℚ)
    (brands : List Brand) (files : List String) : List (String × PImage) :=
  let topic := plan.topic
  let aesthetic := plan.aesthetic
  let slides := plan.slides
  let safe_topic := sanitize_topic topic
  let base_seed : Option Nat := if provider == "fal" then some seed_draw else none
  let task_args := story_task_args plan provider consistency_data base_seed
  let results : List (Nat × Option PImage) :=
    task_args.map (fun t =>
      (t.slide.slide_number, (_generate_single_slide_worker (callee t.slide) (jitter t.slide)).1))
  let brand_config := resolve_brand_config brands brand_id
  let use_text_overlay := text_overlay.getD TEXT_OVERLAY_ENABLED
  slides.foldl (fun acc slide =>
    match (results.lookup slide.slide_number).join with
    | some img0 =>
      let img1 := if use_text_overlay then _apply_text_overlay img0 slide aesthetic else img0
      let img2 := apply_watermark brands files img1 brand_config
      acc ++ [(slide_filename output_dir safe_topic timestamp slide.slide_number, img2)]
    | none => acc) []

/-- The value actually returned by the Python function: the list of saved
file paths, in the order the save loop appended them. -/
def generate_story_from_plan_parallel_paths (plan : Plan) (output_dir : String)
    (provider : String) (brand_id : Option String)
    (consistency_data : Option ConsistencyData) (max_workers : Nat)
    (text_overlay : Option Bool) (timestamp : String) (seed_draw : Nat)
    (callee : Slide → Nat → AttemptOutcome) (jitter : Slide → Nat → ℚ)
    (brands : List Brand) (files : List String) : List String :=
  (generate_story_from_plan_parallel plan output_dir provider brand_id consistency_data
    max_workers text_overlay timestamp seed_draw callee jitter brands files).map Prod.fst

/-- The sequential `generate_story_from_plan(plan, output_dir, provider,
brand_id, text_overlay)`: one direct `generate_story_image` call per slide
(no worker, no retry, no consistency data, no seed), same brand resolution,
overlay/watermark and naming as the parallel variant. -/
def generate_story_from_plan (plan : Plan) (output_dir : String)
    (provider : String) (brand_id : Option String) (text_overlay : Option Bool)
    (timestamp : String) (clients : Clients) (backend : Slide → BackendOutcome)
    (brands : List Brand) (files : List String) : List (String × PImage) :=
  let topic := plan.topic
  let aesthetic := plan.aesthetic
  let slides := plan.slides
  let image_size := plan.image_size.getD "story"
  let safe_topic := sanitize_topic topic
  let brand_config := resolve_brand_config brands brand_id
  let use_text_overlay := text_overlay.getD TEXT_OVERLAY_ENABLED
  slides.foldl (fun acc slide =>
    match generate_story_image clients (backend slide) slide topic slides.length
        aesthetic image_size provider none none with
    | some img0 =>
      let img1 := if use_text_overlay then _apply_text_overlay img0 slide aesthetic else img0
      let img2 := apply_watermark brands files img1 brand_config
      acc ++ [(slide_filename output_dir safe_topic timestamp slide.slide_number, img2)]
    | none => acc) []

/-- The full-chain callee of the worker: each attempt is a normal return of
`generate_story_image` (the adapters catch all their own exceptions, so the
chain never raises into the worker). -/
def provider_callee (clients : Clients) (backend : Nat → Nat → BackendOutcome)
    (topic : String) (total_slides : Nat) (aesthetic : Aesthetic)
    (image_size : String) (provider : String)
    (consistency_data : Option ConsistencyData) (seed : Option Nat) :
    Slide → Nat → AttemptOutcome :=
  fun slide attempt =>
    .ret (generate_story_image clients (backend slide.slide_number attempt) slide topic
      total_slides aesthetic image_size provider consistency_data seed)

/-- Whether a client handle is initialized for the selected provider
(`"fal"` uses `fal_client`; `"gemini-pro"` and the gemini-flash default both
use `gemini_client`). -/
def client_configured (clients : Clients) (provider : String) : Bool :=
  if provider == "fal" then clients.fal_client else clients.gemini_client

/-! ## Scheduler model (`ThreadPoolExecutor(max_workers=k)`) -/

/-- A state of the bounded worker pool: slide numbers whose task has not
started, is in flight, or has completed. -/
structure SchedState where
  pending : List Nat
  running : List Nat
  done : List Nat
deriving DecidableEq, Repr

/-- Modelled from the spec: `ThreadPoolExecutor` is standard-library code,
not part of this repository.  Its documented contract — at most
`max_workers` worker threads, each executing one submitted task at a time,
with queued tasks picked up as workers free — is the step relation: a pending
task may start only while fewer than `k` tasks are in flight, and an
in-flight task may finish at any time.  Completion order is otherwise
unconstrained, matching the nondeterminism of `as_completed`. -/
inductive SchedStep (k : Nat) : SchedState → SchedState → Prop where
  | start (s : SchedState) (t : Nat) (ht : t ∈ s.pending) (hcap : s.running.length < k) :
      SchedStep k s ⟨s.pending.erase t, t :: s.running, s.done⟩
  | finish (s : SchedState) (t : Nat) (ht : t ∈ s.running) :
      SchedStep k s ⟨s.pending, s.running.erase t, t :: s.done⟩

/-- Reflexive-transitive closure of `SchedStep`. -/
inductive SchedReachable (k : Nat) (init : SchedState) : SchedState → Prop where
  | refl : SchedReachable k init init
  | tail (s s' : SchedState) (h : SchedReachable k init s) (hs : SchedStep k s s') :
      SchedReachable k init s'

/-- The pool state right after `generate_story_from_plan_parallel` submits
every slide's task (`executor.submit(...) for args in task_args`): all slides
pending, none started. -/
def initial_sched_state (plan : Plan) : SchedState :=
  ⟨plan.slides.map (fun s => s.slide_number), [], []⟩

/-! ## Helper lemmas -/

/-- An append-accumulating fold over a guard is a `filter`-then-`map`. -/
theorem foldl_if_append {α β : Type} (p : α → Bool) (f : α → β) :
    ∀ (l : List α) (acc : List β),
      l.foldl (fun acc c => if p c then acc ++ [f c] else acc) acc
        = acc ++ (l.filter p).map f := by
  intro l
  induction l with
  | nil => intro acc; simp
  | cons a t ih =>
    intro acc
    cases hp : p a <;> simp [List.foldl_cons, hp, ih, List.filter_cons]

/-- An append-accumulating fold over an optional value is a `filterMap`. -/
theorem foldl_match_filterMap {α β : Type} (g : α → Option β) :
    ∀ (l : List α) (acc : List β),
      l.foldl (fun a s => match g s with | some b => a ++ [b] | none => a) acc
        = acc ++ l.filterMap g := by
  intro l
  induction l with
  | nil => intro acc; simp
  | cons a t ih =>
    intro acc
    cases hg : g a <;> simp [List.foldl_cons, hg, ih, List.filterMap_cons]

/-- Association-list lookup over pairs built from a key function: with
pairwise-distinct keys every element finds its own value. -/
theorem lookup_map_key {α β : Type} [DecidableEq α] (num : α → Nat) (f : α → β) :
    ∀ (l : List α), (l.map num).Nodup → ∀ s ∈ l,
      (l.map (fun t => (num t, f t))).lookup (num s) = some (f s) := by
  intro l
  induction l with
  | nil => simp
  | cons a t ih =>
    intro hnd s hs
    simp only [List.map_cons, List.nodup_cons] at hnd
    rcases List.mem_cons.mp hs with h | h
    · subst h
      simp [List.lookup]
    · have hne : (num s == num a) = false := by
        simp only [beq_eq_false_iff_ne, ne_eq]
        intro he
        exact hnd.1 (he ▸ List.mem_map_of_mem num h)
      simp only [List.map_cons, List.lookup, hne]
      exact ih hnd.2 s h

/-- `filterMap` of an `Option.map`-shaped function: projecting the first
component gives the filtered `map`. -/
theorem map_fst_filterMap {α β γ δ : Type} (F : α → Option β) (p : α → γ) (q : α → β → δ) :
    ∀ l : List α,
      (l.filterMap (fun s => (F s).map (fun b => (p s, q s b)))).map Prod.fst
        = (l.filter (fun s => (F s).isSome)).map p := by
  intro l
  induction l with
  | nil => simp
  | cons a t ih =>
    cases hF : F a <;>
      simp [List.filterMap_cons, List.filter_cons, hF, ih]

/-- Length of a `filterMap` of an `Option.map`-shaped function. -/
theorem length_filterMap_option_map {α β γ : Type} (F : α → Option β) (e : α → β → γ) :
    ∀ l : List α,
      (l.filterMap (fun s => (F s).map (e s))).length
        = (l.filter (fun s => (F s).isSome)).length := by
  intro l
  induction l with
  | nil => simp
  | cons a t ih =>
    cases hF : F a <;>
      simp [List.filterMap_cons, List.filter_cons, hF, ih]

/-- The head surviving `dropWhile` fails the predicate. -/
theorem head_dropWhile_not {p : Char → Bool} :
    ∀ {l : List Char} {c : Char}, (l.dropWhile p).head? = some c → p c = false := by
  intro l
  induction l with
  | nil => intro c h; simp [List.dropWhile] at h
  | cons a t ih =>
    intro c h
    rw [List.dropWhile_cons] at h
    by_cases hp : p a = true
    · rw [if_pos hp] at h; exact ih h
    · rw [if_neg hp] at h
      simp only [List.head?_cons, Option.some.injEq] at h
      subst h
      exact Bool.not_eq_true _ ▸ Bool.of_not_eq_true hp

/-- Membership is preserved backwards through `dropWhile`. -/
theorem mem_of_mem_dropWhile {p : Char → Bool} :
    ∀ {l : List Char} {c : Char}, c ∈ l.dropWhile p → c ∈ l := by
  intro l
  induction l with
  | nil => intro c h; simp [List.dropWhile] at h
  | cons a t ih =>
    intro c h
    rw [List.dropWhile_cons] at h
    by_cases hp : p a = true
    · rw [if_pos hp] at h; exact List.mem_cons_of_mem a (ih h)
    · rw [if_neg hp] at h; exact h

/-- `dropWhile` yields a suffix. -/
theorem dropWhile_suffix_of (p : Char → Bool) :
    ∀ l : List Char, l.dropWhile p <:+ l := by
  intro l
  induction l with
  | nil => simp [List.dropWhile]
  | cons a t ih =>
    rw [List.dropWhile_cons]
    by_cases hp : p a = true
    · rw [if_pos hp]; exact ih.trans (List.suffix_cons a t)
    · rw [if_neg hp]

/-- Every character of the stripped list occurs in the original. -/
theorem mem_of_mem_strip_chars {l : List Char} {c : Char} (h : c ∈ strip_chars l) : c ∈ l := by
  unfold strip_chars at h
  rw [List.mem_reverse] at h
  have h1 := mem_of_mem_dropWhile h
  rw [List.mem_reverse] at h1
  exact mem_of_mem_dropWhile h1

/-- Stripping does not lengthen a list. -/
theorem strip_chars_length_le (l : List Char) : (strip_chars l).length ≤ l.length := by
  unfold strip_chars
  rw [List.length_reverse]
  calc (List.dropWhile Char.isWhitespace (List.dropWhile Char.isWhitespace l).reverse).length
      ≤ (List.dropWhile Char.isWhitespace l).reverse.length :=
        (dropWhile_suffix_of _ _).sublist.length_le
    _ = (List.dropWhile Char.isWhitespace l).length := List.length_reverse _
    _ ≤ l.length := (dropWhile_suffix_of _ _).sublist.length_le

/-- The first character of the stripped list is not whitespace. -/
theorem strip_chars_head_not_white {l : List Char} {c : Char}
    (h : (strip_chars l).head? = some c) : c.isWhitespace = false := by
  unfold strip_chars at h
  set A := l.dropWhile Char.isWhitespace with hA
  set Z := A.reverse.dropWhile Char.isWhitespace with hZ
  have hsuf : Z <:+ A.reverse := dropWhile_suffix_of _ _
  have hpre : Z.reverse <+: A := by
    have := List.reverse_prefix.mpr hsuf
    rwa [List.reverse_reverse] at this
  obtain ⟨t, ht⟩ := hpre
  cases hzr : Z.reverse with
  | nil => rw [hzr] at h; simp at h
  | cons x xs =>
    rw [hzr] at h
    simp only [List.head?_cons, Option.some.injEq] at h
    rw [hzr] at ht
    have hA2 : A.head? = some x := by rw [← ht]; rfl
    have hx := head_dropWhile_not hA2
    rwa [h] at hx

/-- The last character of the stripped list is not whitespace. -/
theorem strip_chars_getLast_not_white {l : List Char} {c : Char}
    (h : (strip_chars l).getLast? = some c) : c.isWhitespace = false := by
  unfold strip_chars at h
  rw [List.getLast?_reverse] at h
  exact head_dropWhile_not h

/-- One loop iteration when `generate_story_image` returns normally: the
worker returns immediately. -/
theorem worker_loop_ret (callee : Nat → AttemptOutcome) (jitter : Nat → ℚ)
    (rem attempt : Nat) (image : Option PImage) (hc : callee attempt = .ret image) :
    worker_loop callee jitter (rem + 1) attempt = (image, 1, []) := by
  simp [worker_loop, hc]

/-- One loop iteration on a non-rate-limited exception: the worker stops with
a failed slide after this single invocation. -/
theorem worker_loop_stop (callee : Nat → AttemptOutcome) (jitter : Nat → ℚ)
    (rem attempt : Nat) (msg : String) (hc : callee attempt = .exn msg)
    (hr : is_rate_limit_error msg = false) :
    worker_loop callee jitter (rem + 1) attempt = (none, 1, []) := by
  simp [worker_loop, hc, hr]

/-- One loop iteration on a rate-limited exception: sleep
`RETRY_BASE_DELAY ^ attempt + jitter` and continue with the next attempt. -/
theorem worker_loop_rate (callee : Nat → AttemptOutcome) (jitter : Nat → ℚ)
    (rem attempt : Nat) (msg : String) (hc : callee attempt = .exn msg)
    (hr : is_rate_limit_error msg = true) :
    worker_loop callee jitter (rem + 1) attempt =
      ((worker_loop callee jitter rem (attempt + 1)).1,
       (worker_loop callee jitter rem (attempt + 1)).2.1 + 1,
       (RETRY_BASE_DELAY ^ attempt + jitter attempt) ::
         (worker_loop callee jitter rem (attempt + 1)).2.2) := by
  simp [worker_loop, hc, hr]

/-- Looking up any key in an association list all of whose stored values are
`none` never produces an image. -/
theorem lookup_join_none {α β : Type} [BEq α] :
    ∀ (l : List (α × Option β)), (∀ p ∈ l, p.2 = none) → ∀ n : α,
      ((l.lookup n).join) = none := by
  intro l
  induction l with
  | nil => intro _ n; simp [List.lookup]
  | cons p t ih =>
    intro h n
    obtain ⟨a, b⟩ := p
    have hb : b = none := h (a, b) (List.mem_cons_self _ _)
    have iht := ih (fun q hq => h q (List.mem_cons_of_mem _ hq)) n
    subst hb
    cases hn : n == a with
    | true => simp [List.lookup, hn]
    | false =>
      simp only [List.lookup, hn]
      exact iht

/-- The save loop of the batch functions, generalized: folding the
match-and-append body over the slides equals a `filterMap`, for any
per-slide image source `F` agreeing with `G` on the slides. -/
theorem save_fold_general (F G : Slide → Option PImage)
    (entry : Slide → PImage → String × PImage) :
    ∀ (slides : List Slide), (∀ s ∈ slides, F s = G s) → ∀ acc,
      slides.foldl (fun acc slide =>
          match F slide with
          | some img0 => acc ++ [entry slide img0]
          | none => acc) acc
        = acc ++ slides.filterMap (fun s => (G s).map (entry s)) := by
  intro slides
  induction slides with
  | nil => intro _ acc; simp
  | cons a t ih =>
    intro hFG acc
    have hFa : F a = G a := hFG a (List.mem_cons_self a t)
    have iht := ih (fun s hs => hFG s (List.mem_cons_of_mem a hs))
    cases hG : G a with
    | some img => simp [List.foldl_cons, hFa, hG, List.filterMap_cons, iht]
    | none => simp [List.foldl_cons, hFa, hG, List.filterMap_cons, iht]

/-- Characterization of the parallel batch: with pairwise-distinct slide
numbers it saves exactly one post-processed file per slide whose worker
produced an image, walking the plan's slides in order. -/
theorem parallel_characterization (plan : Plan) (output_dir provider : String)
    (brand_id : Option String) (consistency_data : Option ConsistencyData)
    (max_workers : Nat) (text_overlay : Option Bool) (timestamp : String) (seed_draw : Nat)
    (callee : Slide → Nat → AttemptOutcome) (jitter : Slide → Nat → ℚ)
    (brands : List Brand) (files : List String)
    (hnd : (plan.slides.map (fun s => s.slide_number)).Nodup) :
    generate_story_from_plan_parallel plan output_dir provider brand_id consistency_data
        max_workers text_overlay timestamp seed_draw callee jitter brands files
      = plan.slides.filterMap (fun s =>
          ((_generate_single_slide_worker (callee s) (jitter s)).1).map (fun img =>
            (slide_filename output_dir (sanitize_topic plan.topic) timestamp s.slide_number,
             apply_watermark brands files
               (if text_overlay.getD TEXT_OVERLAY_ENABLED then _apply_text_overlay img s plan.aesthetic
                else img)
               (resolve_brand_config brands brand_id)))) := by
  have hmap : (story_task_args plan provider consistency_data
        (if provider == "fal" then some seed_draw else none)).map
      (fun t => (t.slide.slide_number,
        (_generate_single_slide_worker (callee t.slide) (jitter t.slide)).1))
      = plan.slides.map (fun s => (s.slide_number,
          (_generate_single_slide_worker (callee s) (jitter s)).1)) := by
    simp [story_task_args, List.map_map]
  have hres : ∀ s ∈ plan.slides,
      (((story_task_args plan provider consistency_data
          (if provider == "fal" then some seed_draw else none)).map
        (fun t => (t.slide.slide_number,
          (_generate_single_slide_worker (callee t.slide) (jitter t.slide)).1))).lookup
            s.slide_number).join
        = (_generate_single_slide_worker (callee s) (jitter s)).1 := by
    intro s hs
    rw [hmap, lookup_map_key (fun s => s.slide_number)
      (fun s => (_generate_single_slide_worker (callee s) (jitter s)).1) plan.slides hnd s hs]
    rfl
  simp only [generate_story_from_plan_parallel]
  have h := save_fold_general
    (fun slide => (((story_task_args plan provider consistency_data
        (if provider == "fal" then some seed_draw else none)).map
      (fun t => (t.slide.slide_number,
        (_generate_single_slide_worker (callee t.slide) (jitter t.slide)).1))).lookup
          slide.slide_number).join)
    (fun s => (_generate_single_slide_worker (callee s) (jitter s)).1)
    (fun slide img0 =>
      (slide_filename output_dir (sanitize_topic plan.topic) timestamp slide.slide_number,
       apply_watermark brands files
         (if text_overlay.getD TEXT_OVERLAY_ENABLED then _apply_text_overlay img0 slide plan.aesthetic
          else img0)
         (resolve_brand_config brands brand_id)))
    plan.slides hres []
  simpa using h

/-! ## Concrete fixtures used by witnesses and counterexamples -/

def aes0 : Aesthetic := ⟨none, none, none, none, none, none⟩

def slide1 : Slide := ⟨1, "t1", "f1", "v1"⟩

def plan1 : Plan := ⟨"Topic", aes0, [slide1], none⟩

def clients_off : Clients := ⟨false, false⟩

def slides5 : List Slide :=
  [⟨1, "t1", "f1", "v1"⟩, ⟨2, "t2", "f2", "v2"⟩, ⟨3, "t3", "f3", "v3"⟩,
   ⟨4, "t4", "f4", "v4"⟩, ⟨5, "t5", "f5", "v5"⟩]

def plan5 : Plan := ⟨"Topic", aes0, slides5, none⟩

/-- A per-slide outcome pattern in which slide 2 always fails (with a
non-retryable error) and every other slide succeeds immediately. -/
def callee5 : Slide → Nat → AttemptOutcome := fun s _ =>
  if s.slide_number == 2 then .exn "boom" else .ret (some (PImage.buffer s.slide_number))

def brand0 : Brand :=
  ⟨some "b0", false, some "text", none, some "BRAND", some "bottom-right", none⟩

def img0 : PImage := PImage.buffer 0

def aes_custom : Aesthetic := ⟨some "zz", some "Bold Serif", none, none, none, none⟩

def aes_plain : Aesthetic := ⟨some "zz", none, none, none, none, none⟩

/-! ## Claim theorems -/

/-- Claim C2: the per-slide runner returns immediately when its generation
call returns; on an exception classified as a rate limit it sleeps
`RETRY_BASE_DELAY ^ attempt + jitter` with the jitter drawn from `[0, 1)` and
retries up to `RETRY_MAX_ATTEMPTS = 3` invocations total (an always-
rate-limited callee is invoked exactly 3 times, never a 4th, and the slide is
marked failed); any other exception ends the task after exactly one
invocation with the slide marked failed. -/
theorem retry_algorithm (callee : Nat → AttemptOutcome) (jitter : Nat → ℚ)
    (hj : ∀ a : Nat, 0 ≤ jitter a ∧ jitter a < 1) :
    ((∀ a : Nat, a < RETRY_MAX_ATTEMPTS →
        ∃ msg, callee a = .exn msg ∧ is_rate_limit_error msg = true) →
      _generate_single_slide_worker callee jitter
        = (none, 3, [RETRY_BASE_DELAY ^ 0 + jitter 0, RETRY_BASE_DELAY ^ 1 + jitter 1,
            RETRY_BASE_DELAY ^ 2 + jitter 2])
      ∧ ∀ a : Nat, RETRY_BASE_DELAY ^ a ≤ RETRY_BASE_DELAY ^ a + jitter a
          ∧ RETRY_BASE_DELAY ^ a + jitter a < RETRY_BASE_DELAY ^ a + 1)
    ∧ (∀ image : Option PImage, callee 0 = .ret image →
        _generate_single_slide_worker callee jitter = (image, 1, []))
    ∧ (∀ msg : String, callee 0 = .exn msg → is_rate_limit_error msg = false →
        _generate_single_slide_worker callee jitter = (none, 1, [])) := by
  refine ⟨?_, ?_, ?_⟩
  · intro hall
    obtain ⟨m0, h0, r0⟩ := hall 0 (by norm_num [RETRY_MAX_ATTEMPTS])
    obtain ⟨m1, h1, r1⟩ := hall 1 (by norm_num [RETRY_MAX_ATTEMPTS])
    obtain ⟨m2, h2, r2⟩ := hall 2 (by norm_num [RETRY_MAX_ATTEMPTS])
    constructor
    · have e3 : worker_loop callee jitter 3 0
          = ((worker_loop callee jitter 2 1).1, (worker_loop callee jitter 2 1).2.1 + 1,
             (RETRY_BASE_DELAY ^ 0 + jitter 0) :: (worker_loop callee jitter 2 1).2.2) :=
        worker_loop_rate callee jitter 2 0 m0 h0 r0
      have e2 : worker_loop callee jitter 2 1
          = ((worker_loop callee jitter 1 2).1, (worker_loop callee jitter 1 2).2.1 + 1,
             (RETRY_BASE_DELAY ^ 1 + jitter 1) :: (worker_loop callee jitter 1 2).2.2) :=
        worker_loop_rate callee jitter 1 1 m1 h1 r1
      have e1 : worker_loop callee jitter 1 2
          = ((worker_loop callee jitter 0 3).1, (worker_loop callee jitter 0 3).2.1 + 1,
             (RETRY_BASE_DELAY ^ 2 + jitter 2) :: (worker_loop callee jitter 0 3).2.2) :=
        worker_loop_rate callee jitter 0 2 m2 h2 r2
      have e0 : worker_loop callee jitter 0 3 = (none, 0, []) := rfl
      show worker_loop callee jitter 3 0 = _
      rw [e3, e2, e1, e0]
    · intro a
      exact ⟨le_add_of_nonneg_right (hj a).1, by have := (hj a).2; linarith⟩
  · intro image h0
    exact worker_loop_ret callee jitter 2 0 image h0
  · intro msg h0 hr
    exact worker_loop_stop callee jitter 2 0 msg h0 hr

theorem retry_algorithm_witness :
    (∀ a : Nat, 0 ≤ (0 : ℚ) ∧ (0 : ℚ) < 1)
    ∧ _generate_single_slide_worker (fun _ => AttemptOutcome.exn "429 Too Many Requests")
        (fun _ => 0)
      = (none, 3, [RETRY_BASE_DELAY ^ 0 + 0, RETRY_BASE_DELAY ^ 1 + 0, RETRY_BASE_DELAY ^ 2 + 0]) := by
  have h := (retry_algorithm (fun _ => AttemptOutcome.exn "429 Too Many Requests") (fun _ => 0)
    (fun a => ⟨le_refl 0, by norm_num⟩)).1
    (fun a _ => ⟨"429 Too Many Requests", rfl, by decide⟩)
  exact ⟨fun a => ⟨le_refl 0, by norm_num⟩, h.1⟩

/-- Claim C5: when (and only when) the selected provider is `"fal"`, one seed
drawn by `random.randint(1, 2147483647)` — hence a positive integer in that
range — is shared identically by every task of the batch; for any other
provider every task's seed is absent.  The draw happens once per batch call,
on the batch's own `seed_draw`. -/
theorem seed_allocation_and_sharing (plan : Plan) (provider : String)
    (consistency_data : Option ConsistencyData) (seed_draw : Nat)
    (hdraw : 1 ≤ seed_draw ∧ seed_draw ≤ 2147483647) :
    (provider = "fal" →
      ∀ t ∈ story_task_args plan provider consistency_data
          (if provider == "fal" then some seed_draw else none),
        t.seed = some seed_draw ∧ 1 ≤ seed_draw ∧ seed_draw ≤ 2147483647)
    ∧ (provider ≠ "fal" →
      ∀ t ∈ story_task_args plan provider consistency_data
          (if provider == "fal" then some seed_draw else none),
        t.seed = none) := by
  constructor
  · intro hp t ht
    subst hp
    simp only [story_task_args, List.mem_map] at ht
    obtain ⟨s, hs, rfl⟩ := ht
    exact ⟨by simp, hdraw.1, hdraw.2⟩
  · intro hp t ht
    have hb : (provider == "fal") = false := beq_eq_false_iff_ne.mpr hp
    simp only [story_task_args, List.mem_map] at ht
    obtain ⟨s, hs, rfl⟩ := ht
    simp [hb]

theorem seed_allocation_and_sharing_witness :
    (1 ≤ 42 ∧ 42 ≤ 2147483647)
    ∧ (∀ t ∈ story_task_args plan5 "fal" none (if "fal" == "fal" then some 42 else none),
        t.seed = some 42 ∧ 1 ≤ 42 ∧ 42 ≤ 2147483647) :=
  ⟨⟨by norm_num, by norm_num⟩,
   (seed_allocation_and_sharing plan5 "fal" none 42 ⟨by norm_num, by norm_num⟩).1 rfl⟩

/-- Claim C6: a character or object entry contributes its
`CHARACTER - name: description` / `RECURRING ELEMENT - name: description`
line to the slide's consistency sections exactly when the slide's number is
in that entry's `appears_in_slides` (entries whose list lacks the number
contribute nothing), and the consistency section is spliced verbatim into the
composed prompt between its two fixed parts. -/
theorem consistency_injection (slide : Slide) (cd : ConsistencyData) (topic : String)
    (aesthetic : Aesthetic) (image_size : String) :
    consistency_sections slide cd
      = ((cd.characters.filter
            (fun c => c.appears_in_slides.contains slide.slide_number)).map fmt_character
          ++ (cd.objects.filter
            (fun o => o.appears_in_slides.contains slide.slide_number)).map fmt_object)
        ++ env_sections cd
    ∧ compose_prompt slide topic aesthetic image_size (some cd)
      = prompt_before_consistency
          (_get_style_enforcement (aesthetic.art_style.getD "cinematic illustration")) topic
          (if image_size == "square" then "square 1:1 format for Instagram posts"
           else "vertical 9:16 portrait format for Instagram/WhatsApp stories")
        ++ _build_consistency_section slide (some cd)
        ++ prompt_after_consistency slide topic aesthetic
            (aesthetic.art_style.getD "cinematic illustration")
            (_get_style_specific_text_instructions aesthetic) := by
  constructor
  · simp only [consistency_sections]
    rw [foldl_if_append, foldl_if_append]
    simp [List.append_assoc]
  · rfl

/-- Claim C9: in the bounded-pool model of the batch's
`ThreadPoolExecutor(max_workers=k)` run (all slides submitted up front), no
reachable state has more than `k` tasks in flight, and while pending tasks
remain below capacity another task can always be started. -/
theorem concurrency_bound (plan : Plan) (k : Nat) (s : SchedState)
    (h : SchedReachable k (initial_sched_state plan) s) :
    s.running.length ≤ k
    ∧ (s.pending ≠ [] → s.running.length < k → ∃ s', SchedStep k s s') := by
  constructor
  · induction h with
    | refl => simp [initial_sched_state]
    | tail s1 s2 h1 hs ih =>
      cases hs with
      | start t ht hcap =>
        simp only [List.length_cons]
        omega
      | finish t ht =>
        calc (s1.running.erase t).length ≤ s1.running.length :=
              (List.erase_sublist _ _).length_le
          _ ≤ k := ih
  · intro hp hlt
    obtain ⟨t, ht⟩ := List.exists_mem_of_ne_nil s.pending hp
    exact ⟨_, SchedStep.start s t ht hlt⟩

theorem concurrency_bound_witness :
    (initial_sched_state plan5).running.length ≤ 3
    ∧ ((initial_sched_state plan5).pending ≠ [] →
        (initial_sched_state plan5).running.length < 3 →
        ∃ s', SchedStep 3 (initial_sched_state plan5) s') :=
  concurrency_bound plan5 3 (initial_sched_state plan5) SchedReachable.refl

/-- Claim C1: for every plan (with its invariant distinct slide numbers) and
every per-slide outcome pattern, the parallel batch returns normally with
exactly one saved, post-processed file per slide whose worker produced an
image, each at its own slide number; a failed slide contributes no file (its
entry is dropped, not renumbered). -/
theorem partial_failure_independence (plan : Plan) (output_dir provider : String)
    (brand_id : Option String) (consistency_data : Option ConsistencyData)
    (max_workers : Nat) (text_overlay : Option Bool) (timestamp : String) (seed_draw : Nat)
    (callee : Slide → Nat → AttemptOutcome) (jitter : Slide → Nat → ℚ)
    (brands : List Brand) (files : List String)
    (hnd : (plan.slides.map (fun s => s.slide_number)).Nodup) :
    generate_story_from_plan_parallel plan output_dir provider brand_id consistency_data
        max_workers text_overlay timestamp seed_draw callee jitter brands files
      = plan.slides.filterMap (fun s =>
          ((_generate_single_slide_worker (callee s) (jitter s)).1).map (fun img =>
            (slide_filename output_dir (sanitize_topic plan.topic) timestamp s.slide_number,
             apply_watermark brands files
               (if text_overlay.getD TEXT_OVERLAY_ENABLED then _apply_text_overlay img s plan.aesthetic
                else img)
               (resolve_brand_config brands brand_id))))
    ∧ (generate_story_from_plan_parallel plan output_dir provider brand_id consistency_data
        max_workers text_overlay timestamp seed_draw callee jitter brands files).length
      = (plan.slides.filter (fun s =>
          ((_generate_single_slide_worker (callee s) (jitter s)).1).isSome)).length := by
  have h := parallel_characterization plan output_dir provider brand_id consistency_data
    max_workers text_overlay timestamp seed_draw callee jitter brands files hnd
  refine ⟨h, ?_⟩
  rw [h]
  exact length_filterMap_option_map _ _ plan.slides

theorem partial_failure_independence_witness :
    (plan5.slides.map (fun s => s.slide_number)).Nodup
    ∧ (generate_story_from_plan_parallel plan5 "out" "gemini-flash" none none 3 none "ts" 7
          callee5 (fun _ _ => 0) [] []
        = [("out/Topic_ts_slide1.png", PImage.buffer 1), ("out/Topic_ts_slide3.png", PImage.buffer 3),
           ("out/Topic_ts_slide4.png", PImage.buffer 4), ("out/Topic_ts_slide5.png", PImage.buffer 5)]
      ∧ (generate_story_from_plan_parallel plan5 "out" "gemini-flash" none none 3 none "ts" 7
            callee5 (fun _ _ => 0) [] []).length
          = (plan5.slides.filter (fun s =>
              ((_generate_single_slide_worker (callee5 s) (fun _ => (0 : ℚ))).1).isSome)).length) := by
  exact ⟨by decide, by
    have h := partial_failure_independence plan5 "out" "gemini-flash" none none 3 none "ts" 7
      callee5 (fun _ _ => 0) [] [] (by decide)
    exact ⟨by rw [h.1]; rfl, h.2⟩⟩

/-- Claim C3: the returned path list has one entry per slide whose image is
present, in ascending slide-number order (failed slides are skipped, never
renumbered), each named by `slide_filename` —
`output_dir/{sanitizedTopic}_{timestamp}_slide{N}.png` — where the sanitized
topic contains only alphanumerics, space, `-` and `_` (every other character
replaced), is at most 30 characters, and has no surrounding whitespace. -/
theorem output_naming_and_ordering (plan : Plan) (output_dir provider : String)
    (brand_id : Option String) (consistency_data : Option ConsistencyData)
    (max_workers : Nat) (text_overlay : Option Bool) (timestamp : String) (seed_draw : Nat)
    (callee : Slide → Nat → AttemptOutcome) (jitter : Slide → Nat → ℚ)
    (brands : List Brand) (files : List String)
    (hsorted : List.Pairwise (fun a b => a.slide_number < b.slide_number) plan.slides) :
    generate_story_from_plan_parallel_paths plan output_dir provider brand_id consistency_data
        max_workers text_overlay timestamp seed_draw callee jitter brands files
      = (plan.slides.filter (fun s =>
            ((_generate_single_slide_worker (callee s) (jitter s)).1).isSome)).map
          (fun s => slide_filename output_dir (sanitize_topic plan.topic) timestamp s.slide_number)
    ∧ List.Pairwise (· < ·)
        ((plan.slides.filter (fun s =>
            ((_generate_single_slide_worker (callee s) (jitter s)).1).isSome)).map
          (fun s => s.slide_number))
    ∧ (∀ c ∈ (sanitize_topic plan.topic).data,
        (c.isAlphanum || c == ' ' || c == '-' || c == '_') = true)
    ∧ (sanitize_topic plan.topic).data.length ≤ 30
    ∧ (∀ c, (sanitize_topic plan.topic).data.head? = some c → c.isWhitespace = false)
    ∧ (∀ c, (sanitize_topic plan.topic).data.getLast? = some c → c.isWhitespace = false) := by
  have hnd : (plan.slides.map (fun s => s.slide_number)).Nodup :=
    List.pairwise_map.mpr (hsorted.imp (fun h => Nat.ne_of_lt h))
  have hchar := parallel_characterization plan output_dir provider brand_id consistency_data
    max_workers text_overlay timestamp seed_draw callee jitter brands files hnd
  refine ⟨?_, ?_, ?_, ?_, ?_, ?_⟩
  · simp only [generate_story_from_plan_parallel_paths, hchar]
    exact map_fst_filterMap _ _ _ plan.slides
  · exact List.pairwise_map.mpr (List.Pairwise.sublist (List.filter_sublist _) hsorted)
  · intro c hc
    have hc1 : c ∈ strip_chars ((plan.topic.data.map
        (fun c => if c.isAlphanum || c == ' ' || c == '-' || c == '_' then c else '_')).take 30) := by
      simpa [sanitize_topic] using hc
    have hc2 := mem_of_mem_strip_chars hc1
    have hc3 : c ∈ plan.topic.data.map
        (fun c => if c.isAlphanum || c == ' ' || c == '-' || c == '_' then c else '_') :=
      (List.take_sublist _ _).subset hc2
    obtain ⟨d, hd, hdc⟩ := List.mem_map.mp hc3
    by_cases hcond : (d.isAlphanum || d == ' ' || d == '-' || d == '_') = true
    · rw [if_pos hcond] at hdc
      rw [← hdc]
      exact hcond
    · rw [if_neg hcond] at hdc
      rw [← hdc]
      decide
  · have h1 := strip_chars_length_le ((plan.topic.data.map
        (fun c => if c.isAlphanum || c == ' ' || c == '-' || c == '_' then c else '_')).take 30)
    have h2 : ((plan.topic.data.map
        (fun c => if c.isAlphanum || c == ' ' || c == '-' || c == '_' then c else '_')).take 30).length
        ≤ 30 := by
      simp
    simpa [sanitize_topic] using le_trans h1 h2
  · intro c h
    exact strip_chars_head_not_white (by simpa [sanitize_topic] using h)
  · intro c h
    exact strip_chars_getLast_not_white (by simpa [sanitize_topic] using h)

theorem output_naming_and_ordering_witness :
    List.Pairwise (fun a b => a.slide_number < b.slide_number) plan5.slides
    ∧ (generate_story_from_plan_parallel_paths plan5 "out" "gemini-flash" none none 3 none "ts" 7
          callee5 (fun _ _ => 0) [] []
        = ["out/Topic_ts_slide1.png", "out/Topic_ts_slide3.png",
           "out/Topic_ts_slide4.png", "out/Topic_ts_slide5.png"]
      ∧ List.Pairwise (· < ·)
          ((plan5.slides.filter (fun s =>
              ((_generate_single_slide_worker (callee5 s) ((fun (_ : Slide) (_ : Nat) => (0:ℚ)) s)).1).isSome)).map
            (fun s => s.slide_number))
      ∧ (∀ c ∈ (sanitize_topic plan5.topic).data,
          (c.isAlphanum || c == ' ' || c == '-' || c == '_') = true)
      ∧ (sanitize_topic plan5.topic).data.length ≤ 30
      ∧ (∀ c, (sanitize_topic plan5.topic).data.head? = some c → c.isWhitespace = false)
      ∧ (∀ c, (sanitize_topic plan5.topic).data.getLast? = some c → c.isWhitespace = false)) := by
  refine ⟨by decide, ?_⟩
  obtain ⟨h1, h2, h3, h4, h5, h6⟩ := output_naming_and_ordering plan5 "out" "gemini-flash"
    none none 3 none "ts" 7 callee5 (fun _ _ => 0) [] [] (by decide)
  exact ⟨by rw [h1]; rfl, h2, h3, h4, h5, h6⟩

/-- Claim C10: while the module constant `TEXT_OVERLAY_ENABLED` is `False`,
`_apply_text_overlay` returns its input unchanged, so the `text_overlay`
parameter cannot enable the overlay: both batch functions produce identical
(path, image) outputs for `text_overlay=True` and `text_overlay=False`. -/
theorem text_overlay_inert (plan : Plan) (output_dir provider : String)
    (brand_id : Option String) (consistency_data : Option ConsistencyData)
    (max_workers : Nat) (timestamp : String) (seed_draw : Nat)
    (callee : Slide → Nat → AttemptOutcome) (jitter : Slide → Nat → ℚ)
    (brands : List Brand) (files : List String)
    (clients : Clients) (backend : Slide → BackendOutcome) :
    (∀ (image : PImage) (slide : Slide) (aesthetic : Aesthetic),
      _apply_text_overlay image slide aesthetic = image)
    ∧ generate_story_from_plan_parallel plan output_dir provider brand_id consistency_data
        max_workers (some true) timestamp seed_draw callee jitter brands files
      = generate_story_from_plan_parallel plan output_dir provider brand_id consistency_data
          max_workers (some false) timestamp seed_draw callee jitter brands files
    ∧ generate_story_from_plan plan output_dir provider brand_id (some true) timestamp
        clients backend brands files
      = generate_story_from_plan plan output_dir provider brand_id (some false) timestamp
          clients backend brands files := by
  have hov : ∀ (image : PImage) (slide : Slide) (aesthetic : Aesthetic),
      _apply_text_overlay image slide aesthetic = image := by
    intro i s a
    simp [_apply_text_overlay, TEXT_OVERLAY_ENABLED]
  refine ⟨hov, ?_, ?_⟩
  · simp [generate_story_from_plan_parallel, hov]
  · simp [generate_story_from_plan, hov]

/-- Counterexample to claim C4 as stated: with no client configured for the
selected provider, the batch call does not fail before scheduling — the task
for the single slide is built and submitted, its generation returns an absent
image, and the call returns normally with an empty path list. -/
theorem provider_unconfigured_not_fatal_cex :
    client_configured clients_off "gemini-flash" = false
    ∧ (story_task_args plan1 "gemini-flash" none none).length = 1
    ∧ generate_story_from_plan_parallel plan1 "out" "gemini-flash" none none 3 none "ts" 7
        (provider_callee clients_off (fun _ _ => BackendOutcome.empty) "Topic" 1 aes0 "story"
          "gemini-flash" none none)
        (fun _ _ => 0) [] [] = [] := by
  refine ⟨rfl, rfl, ?_⟩
  rfl

/-- `filterMap` of a constantly-`none` function is empty. -/
theorem filterMap_none_eq_nil {α β : Type} (l : List α) :
    l.filterMap (fun _ => (none : Option β)) = [] := by
  induction l with
  | nil => rfl
  | cons a t ih => simp [List.filterMap_cons, ih]

/-- Claim C4, amended: an unconfigured client is not batch-fatal; every
per-slide generation call simply returns an absent image (the adapters check
the client handle and return `None`), the batch schedules all tasks, runs
normally and returns an empty saved-file list. -/
theorem provider_unconfigured_degrades (plan : Plan) (output_dir provider : String)
    (brand_id : Option String) (consistency_data : Option ConsistencyData)
    (max_workers : Nat) (text_overlay : Option Bool) (timestamp : String) (seed_draw : Nat)
    (clients : Clients) (backend : Nat → Nat → BackendOutcome) (jitter : Slide → Nat → ℚ)
    (brands : List Brand) (files : List String)
    (hcfg : client_configured clients provider = false) :
    (∀ (slide : Slide) (attempt : Nat),
      generate_story_image clients (backend slide.slide_number attempt) slide plan.topic
        plan.slides.length plan.aesthetic (plan.image_size.getD "story") provider
        consistency_data (if provider == "fal" then some seed_draw else none) = none)
    ∧ generate_story_from_plan_parallel plan output_dir provider brand_id consistency_data
        max_workers text_overlay timestamp seed_draw
        (provider_callee clients backend plan.topic plan.slides.length plan.aesthetic
          (plan.image_size.getD "story") provider consistency_data
          (if provider == "fal" then some seed_draw else none))
        jitter brands files = [] := by
  have hgen : ∀ (slide : Slide) (attempt : Nat),
      generate_story_image clients (backend slide.slide_number attempt) slide plan.topic
        plan.slides.length plan.aesthetic (plan.image_size.getD "story") provider
        consistency_data (if provider == "fal" then some seed_draw else none) = none := by
    intro slide attempt
    by_cases hf : (provider == "fal") = true
    · have hfc : clients.fal_client = false := by
        simpa [client_configured, hf] using hcfg
      simp [generate_story_image, _generate_with_fal, hf, hfc]
    · have hgc : clients.gemini_client = false := by
        simpa [client_configured, hf] using hcfg
      by_cases hp : (provider == "gemini-pro") = true <;>
        simp [generate_story_image, _generate_with_gemini, hf, hp, hgc]
  refine ⟨hgen, ?_⟩
  have hworker : ∀ s : Slide,
      (_generate_single_slide_worker
        ((provider_callee clients backend plan.topic plan.slides.length plan.aesthetic
          (plan.image_size.getD "story") provider consistency_data
          (if provider == "fal" then some seed_draw else none)) s) (jitter s)).1 = none := by
    intro s
    have hret : (provider_callee clients backend plan.topic plan.slides.length plan.aesthetic
        (plan.image_size.getD "story") provider consistency_data
        (if provider == "fal" then some seed_draw else none)) s 0 = .ret none := by
      have hunf : (provider_callee clients backend plan.topic plan.slides.length plan.aesthetic
          (plan.image_size.getD "story") provider consistency_data
          (if provider == "fal" then some seed_draw else none)) s 0
          = .ret (generate_story_image clients (backend s.slide_number 0) s plan.topic
              plan.slides.length plan.aesthetic (plan.image_size.getD "story") provider
              consistency_data (if provider == "fal" then some seed_draw else none)) := rfl
      rw [hunf, hgen s 0]
    have h31 : worker_loop
        ((provider_callee clients backend plan.topic plan.slides.length plan.aesthetic
          (plan.image_size.getD "story") provider consistency_data
          (if provider == "fal" then some seed_draw else none)) s) (jitter s) 3 0
        = (none, 1, []) :=
      worker_loop_ret _ _ 2 0 none hret
    show (worker_loop _ _ 3 0).1 = none
    rw [h31]
  simp only [generate_story_from_plan_parallel]
  have hFG : ∀ s ∈ plan.slides,
      ((((story_task_args plan provider consistency_data
          (if provider == "fal" then some seed_draw else none)).map
        (fun t => (t.slide.slide_number,
          (_generate_single_slide_worker
            ((provider_callee clients backend plan.topic plan.slides.length plan.aesthetic
              (plan.image_size.getD "story") provider consistency_data
              (if provider == "fal" then some seed_draw else none)) t.slide) (jitter t.slide)).1))).lookup
            s.slide_number).join)
        = (fun _ : Slide => (none : Option PImage)) s := by
    intro s _
    refine lookup_join_none _ ?_ s.slide_number
    intro p hp
    obtain ⟨t, ht, rfl⟩ := List.mem_map.mp hp
    exact hworker t.slide
  have h := save_fold_general
    (fun slide => (((story_task_args plan provider consistency_data
        (if provider == "fal" then some seed_draw else none)).map
      (fun t => (t.slide.slide_number,
        (_generate_single_slide_worker
          ((provider_callee clients backend plan.topic plan.slides.length plan.aesthetic
            (plan.image_size.getD "story") provider consistency_data
            (if provider == "fal" then some seed_draw else none)) t.slide) (jitter t.slide)).1))).lookup
          slide.slide_number).join)
    (fun _ => none)
    (fun slide img0 =>
      (slide_filename output_dir (sanitize_topic plan.topic) timestamp slide.slide_number,
       apply_watermark brands files
         (if text_overlay.getD TEXT_OVERLAY_ENABLED then _apply_text_overlay img0 slide plan.aesthetic
          else img0)
         (resolve_brand_config brands brand_id)))
    plan.slides hFG []
  simpa [filterMap_none_eq_nil] using h

theorem provider_unconfigured_degrades_witness :
    client_configured clients_off "gemini-flash" = false
    ∧ ((∀ (slide : Slide) (attempt : Nat),
        generate_story_image clients_off
          ((fun (_ _ : Nat) => BackendOutcome.empty) slide.slide_number attempt) slide plan1.topic
          plan1.slides.length plan1.aesthetic (plan1.image_size.getD "story") "gemini-flash"
          none (if "gemini-flash" == "fal" then some 7 else none) = none)
      ∧ generate_story_from_plan_parallel plan1 "out" "gemini-flash" none none 3 none "ts" 7
          (provider_callee clients_off (fun _ _ => BackendOutcome.empty) plan1.topic
            plan1.slides.length plan1.aesthetic (plan1.image_size.getD "story") "gemini-flash"
            none (if "gemini-flash" == "fal" then some 7 else none))
          (fun _ _ => 0) [] [] = []) :=
  ⟨rfl, provider_unconfigured_degrades plan1 "out" "gemini-flash" none none 3 none "ts" 7
    clients_off (fun _ _ => BackendOutcome.empty) (fun _ _ => 0) [] [] rfl⟩

/-- Counterexample to claim C7 as stated: an aesthetic whose `art_style`
matches no keyword of any family but whose `typography_style` is nonempty
receives the custom typography block, not the generic professional set. -/
theorem style_fallback_cex :
    matches_some_family (str_lower (aes_custom.art_style.getD "")) = false
    ∧ _get_style_specific_text_instructions aes_custom ≠ professional_text_instructions := by
  constructor
  · decide
  · decide

/-- Claim C7, amended: when `art_style` matches no keyword of any family in
the priority-ordered table and `typography_style` is empty, the guidance is
the generic professional instruction set (with a nonempty `typography_style`
the no-match default is instead a custom block built from it). -/
theorem style_fallback_professional (aesthetic : Aesthetic)
    (hmatch : matches_some_family (str_lower (aesthetic.art_style.getD "")) = false)
    (htypo : aesthetic.typography_style.getD "" = "") :
    _get_style_specific_text_instructions aesthetic = professional_text_instructions := by
  have h : ∀ ks ∈ style_family_keyword_table,
      matches_any (str_lower (aesthetic.art_style.getD "")) ks = false := by
    intro ks hks
    by_contra hc
    have htrue : matches_any (str_lower (aesthetic.art_style.getD "")) ks = true := by
      cases hks2 : matches_any (str_lower (aesthetic.art_style.getD "")) ks
      · exact absurd hks2 hc
      · rfl
    have : matches_some_family (str_lower (aesthetic.art_style.getD "")) = true := by
      unfold matches_some_family
      exact List.any_eq_true.mpr ⟨ks, hks, htrue⟩
    rw [hmatch] at this
    exact Bool.false_ne_true this
  have h1 := h anime_keywords (by simp [style_family_keyword_table])
  have h2 := h comic_keywords (by simp [style_family_keyword_table])
  have h3 := h cyberpunk_keywords (by simp [style_family_keyword_table])
  have h4 := h vintage_keywords (by simp [style_family_keyword_table])
  have h5 := h minimal_keywords (by simp [style_family_keyword_table])
  have h6 := h artistic_keywords (by simp [style_family_keyword_table])
  have h7 := h cinematic_keywords (by simp [style_family_keyword_table])
  have h8 := h fantasy_keywords (by simp [style_family_keyword_table])
  have h9 := h sacred_keywords (by simp [style_family_keyword_table])
  have h10 := h cosmic_keywords (by simp [style_family_keyword_table])
  have h11 := h threed_keywords (by simp [style_family_keyword_table])
  have h12 := h graffiti_keywords (by simp [style_family_keyword_table])
  have h13 := h horror_keywords (by simp [style_family_keyword_table])
  have h14 := h warm_keywords (by simp [style_family_keyword_table])
  have h15 := h nature_keywords (by simp [style_family_keyword_table])
  simp only [_get_style_specific_text_instructions, h1, h2, h3, h4, h5, h6, h7, h8, h9,
    h10, h11, h12, h13, h14, h15, htypo]
  simp

theorem style_fallback_professional_witness :
    (matches_some_family (str_lower (aes_plain.art_style.getD "")) = false
      ∧ aes_plain.typography_style.getD "" = "")
    ∧ _get_style_specific_text_instructions aes_plain = professional_text_instructions :=
  ⟨⟨by decide, rfl⟩, style_fallback_professional aes_plain (by decide) rfl⟩

/-- Counterexample to claim C8 as stated: with one stored brand and a
`brand_id` matching no stored brand, the watermark stage is not a no-op — the
unresolved config falls back to the legacy `get_brand_config()`, which
returns the first stored brand with `enabled` forced on, and that brand's
text watermark is applied. -/
theorem watermark_unknown_brand_cex :
    get_brand_by_id [brand0] "missing" = none
    ∧ apply_watermark [brand0] [] img0 (resolve_brand_config [brand0] (some "missing"))
        = PImage.textWatermarked { brand0 with enabled := true } img0
    ∧ apply_watermark [brand0] [] img0 (resolve_brand_config [brand0] (some "missing")) ≠ img0 := by
  refine ⟨rfl, rfl, ?_⟩
  decide

/-- Claim C8, amended: the watermark stage never raises and is a no-op when
the supplied config's enabled flag is false, and also when an unknown
`brand_id` is passed while the brand store is empty; with a nonempty store an
unknown `brand_id` instead falls back to the first stored brand's watermark. -/
theorem watermark_noop_amended (brands : List Brand) (files : List String) (image : PImage) :
    (∀ c : Brand, c.enabled = false → apply_watermark brands files image (some c) = image)
    ∧ (brands = [] → ∀ bid : String,
        apply_watermark brands files image (resolve_brand_config brands (some bid)) = image) := by
  constructor
  · intro c hc
    simp [apply_watermark, hc]
  · intro hb bid
    subst hb
    have hres : resolve_brand_config [] (some bid) = none ∨
        resolve_brand_config [] (some bid) = some (get_brand_config []) := by
      unfold resolve_brand_config get_brand_by_id
      by_cases hbid : ((some bid : Option String).getD "" ≠ "")
      · left
        simp only [Option.getD_some] at hbid
        simp [hbid]
      · right
        simp only [Option.getD_some] at hbid
        simp [hbid]
    rcases hres with h | h <;>
      simp [h, apply_watermark, get_brand_config]

theorem watermark_noop_amended_witness :
    (brand0.enabled = false ∧ apply_watermark [brand0] [] img0 (some brand0) = img0)
    ∧ (([] : List Brand) = []
      ∧ apply_watermark [] [] img0 (resolve_brand_config [] (some "missing")) = img0) :=
  ⟨⟨rfl, (watermark_noop_amended [brand0] [] img0).1 brand0 rfl⟩,
   ⟨rfl, (watermark_noop_amended [] [] img0).2 rfl "missing"⟩⟩
